import Mathlib

/-!
Shallow embedding of the Eruption Python SDK's local transport client
(`sdk/lib/python/eruption/`): framing, wire encoding of requests,
session-client operations, and the Color/Canvas value objects.

Machine bytes are modelled as `Nat` values below 256; Python exceptions
are modelled with `Except` over an explicit error type; Python's
`bytes(list_of_ints)` conversion, tuple item assignment, and attribute
access on a possibly-uninitialised attribute are modelled explicitly.
-/

set_option maxRecDepth 4000

namespace Eruption

/-- Python exceptions that the SDK code can raise: the exception classes
declared in `connection.py` (`InvalidParam`, `NotConnectedError`,
`ConnectionFailed`) and `transport/local.py` (`RequestFailed`), plus the
built-in Python exceptions reachable from the SDK code paths
(`AttributeError`, `TypeError`, `ValueError`, `IndexError`) and the
protobuf decode error. -/
inductive PyError
  | requestFailed
  | notConnectedError
  | invalidParam
  | connectionFailed
  | attributeError
  | typeError
  | valueError
  | indexError
  | decodeError
  deriving Repr, DecidableEq

/-! ## Base-128 varint (write-path length prefix)

`GoogleProtobufEncoder._VarintBytes` encodes an unsigned integer in
base-128 groups, least-significant group first, with the high bit of a
byte set when more groups follow. -/

/-- Base-128 continuation-bit varint encoding, least-significant group
first: the low 7 bits of each byte carry a base-128 digit and the high
bit is set iff more bytes follow. -/
def varintEncode (n : Nat) : List Nat :=
  if h : n < 128 then [n]
  else (n % 128 + 128) :: varintEncode (n / 128)
  decreasing_by exact Nat.div_lt_self (by omega) (by omega)

/-- Base-128 continuation-bit varint decoding: inverse of `varintEncode`,
returning the decoded value and the remaining bytes. -/
def varintDecode : List Nat → Option (Nat × List Nat)
  | [] => none
  | b :: rest =>
    if b < 128 then some (b, rest)
    else
      match varintDecode rest with
      | some (v, rest2) => some (b - 128 + 128 * v, rest2)
      | none => none

theorem varintEncode_ne_nil (n : Nat) : varintEncode n ≠ [] := by
  rw [varintEncode]
  split <;> simp

theorem length_varintEncode_pos (n : Nat) : 1 ≤ (varintEncode n).length := by
  have := varintEncode_ne_nil n
  cases h : varintEncode n with
  | nil => exact absurd h this
  | cons a l => simp

theorem varintEncode_lt (n : Nat) (h : n < 128) : varintEncode n = [n] := by
  rw [varintEncode]
  simp [h]

theorem varintEncode_ge (n : Nat) (h : 128 ≤ n) :
    varintEncode n = (n % 128 + 128) :: varintEncode (n / 128) := by
  rw [varintEncode]
  simp [Nat.not_lt_of_le h]

theorem two_le_length_varintEncode (n : Nat) (h : 128 ≤ n) :
    2 ≤ (varintEncode n).length := by
  rw [varintEncode_ge n h]
  have := length_varintEncode_pos (n / 128)
  simp
  omega

/-- Decoding is a left inverse of encoding, leaving trailing bytes intact. -/
theorem varintDecode_varintEncode (n : Nat) (rest : List Nat) :
    varintDecode (varintEncode n ++ rest) = some (n, rest) := by
  induction n using Nat.strong_induction_on with
  | _ n ih =>
    by_cases h : n < 128
    · rw [varintEncode_lt n h]
      simp [varintDecode, h]
    · push_neg at h
      rw [varintEncode_ge n h]
      have hdiv : n / 128 < n := Nat.div_lt_self (by omega) (by omega)
      have hrec := ih (n / 128) hdiv
      simp only [List.cons_append, varintDecode]
      have hge : ¬ (n % 128 + 128 < 128) := by omega
      have happ : (varintEncode (n / 128)).append rest = varintEncode (n / 128) ++ rest := rfl
      simp only [if_neg hge, happ, hrec]
      have hval : n % 128 + 128 - 128 + 128 * (n / 128) = n := by
        have := Nat.mod_add_div n 128
        omega
      rw [hval]

/-! ## Framing layer

Write path (every operation in `transport/local.py`):
`buf = _VarintBytes(request.ByteSize()); buf += request.SerializeToString()`.
Read path (every operation): `response.ParseFromString(recv_buf[1:])`,
i.e. exactly one leading byte is stripped from the received buffer. -/

/-- Write-path framing: prepend the payload's byte length as a varint
(`_VarintBytes(...) + payload`). -/
def frame (payload : List Nat) : List Nat :=
  varintEncode payload.length ++ payload

/-- Read-path unframing as implemented: `recv_buf[1:]` strips exactly one
leading byte from the received buffer, regardless of the varint length. -/
def unframe (buffer : List Nat) : List Nat :=
  buffer.drop 1

/-! ## Python value helpers -/

/-- A Python value passed as a `set_parameters` keyword argument: an
integer, a string, or a float with an exact decimal representation
`mant / 10 ^ frac` (e.g. `1.5` is `pyFloat10 15 1`). -/
inductive PyVal
  | pyInt (n : Int)
  | pyString (s : String)
  | pyFloat10 (mant : Int) (frac : Nat)
  deriving Repr, DecidableEq

/-- Left-pad a string with `'0'` characters to width `w`. -/
def padZeros (s : String) (w : Nat) : String :=
  String.mk (List.replicate (w - s.length) '0') ++ s

/-- Python's `str(value)` textual coercion, as applied by
`set_parameters` in `transport/local.py` (`str(value)`): integers render
in decimal with a leading minus for negatives, strings render as
themselves, and a decimally-exact float renders its integer part, a dot,
and `frac` fractional digits (`str(1.5) = "1.5"`). -/
def pyStr : PyVal → String
  | .pyInt n => toString n
  | .pyString s => s
  | .pyFloat10 m f =>
    let sign := if m < 0 then "-" else ""
    let a := m.natAbs
    if f = 0 then sign ++ toString a ++ ".0"
    else sign ++ toString (a / 10 ^ f) ++ "." ++ padZeros (toString (a % 10 ^ f)) f

/-- Python's `bytes(list_of_ints)`: succeeds with the byte list when every
element is in `0..255`, raises `ValueError` otherwise. -/
def pyBytes : List Int → Except PyError (List Nat)
  | [] => .ok []
  | x :: xs =>
    if 0 ≤ x ∧ x < 256 then
      match pyBytes xs with
      | .ok bs => .ok (x.toNat :: bs)
      | .error e => .error e
    else .error .valueError

/-- A Python sequence that is either a tuple (immutable) or a list
(mutable); item assignment on a tuple raises `TypeError`. -/
inductive PySeq (α : Type)
  | tuple (xs : List α)
  | pylist (xs : List α)
  deriving Repr, DecidableEq

/-- The elements of the sequence. -/
def PySeq.elems {α : Type} : PySeq α → List α
  | .tuple xs => xs
  | .pylist xs => xs

/-- Python indexing `seq[i]`: the element, or `IndexError` when out of
range (negative indices are not used by the SDK code). -/
def PySeq.getItem {α : Type} (s : PySeq α) (i : Nat) : Except PyError α :=
  if h : i < s.elems.length then .ok (s.elems.get ⟨i, h⟩) else .error .indexError

/-- Python item assignment `seq[i] = v`: raises `TypeError` on a tuple
(tuples do not support item assignment); on a list, replaces the element
or raises `IndexError` when out of range. -/
def PySeq.setItem {α : Type} (s : PySeq α) (i : Nat) (v : α) :
    Except PyError (PySeq α) :=
  match s with
  | .tuple _ => .error .typeError
  | .pylist xs => if i < xs.length then .ok (.pylist (xs.set i v)) else .error .indexError

/-! ## Color (`color.py`) -/

/-- A RGB(A) color value (`color.py`): `__init__(self, *args)` stores the
positional arguments — a Python tuple — directly as `self.data`. Channel
values are Python integers. -/
structure Color where
  data : PySeq Int
  deriving Repr, DecidableEq

/-- `Color(*args)`: stores the argument tuple as `self.data`. -/
def Color.init (args : List Int) : Color :=
  ⟨.tuple args⟩

/-- `Color.set_r`: executes `self.data[0] = val`; returns the outcome of
the statement together with the (possibly updated) object. -/
def Color.set_r (c : Color) (val : Int) : Except PyError Unit × Color :=
  match c.data.setItem 0 val with
  | .ok d => (.ok (), ⟨d⟩)
  | .error e => (.error e, c)

/-- `Color.set_g`: executes `self.data[1] = val`. -/
def Color.set_g (c : Color) (val : Int) : Except PyError Unit × Color :=
  match c.data.setItem 1 val with
  | .ok d => (.ok (), ⟨d⟩)
  | .error e => (.error e, c)

/-- `Color.set_b`: executes `self.data[2] = val`. -/
def Color.set_b (c : Color) (val : Int) : Except PyError Unit × Color :=
  match c.data.setItem 2 val with
  | .ok d => (.ok (), ⟨d⟩)
  | .error e => (.error e, c)

/-- `Color.set_a`: executes `self.data[3] = val`. -/
def Color.set_a (c : Color) (val : Int) : Except PyError Unit × Color :=
  match c.data.setItem 3 val with
  | .ok d => (.ok (), ⟨d⟩)
  | .error e => (.error e, c)

/-! ## Canvas (`canvas.py`) -/

/-- `CANVAS_SIZE = 144 + 36` in `canvas.py`. -/
def CANVAS_SIZE : Nat := 144 + 36

/-- A canvas (`canvas.py`): a `size` field and a Python list `data` of
colors. -/
structure Canvas where
  size : Nat
  data : List Color
  deriving Repr, DecidableEq

/-- `Canvas()`: `self.size = CANVAS_SIZE`,
`self.data = [Color(0, 0, 0, 0)] * CANVAS_SIZE`. -/
def Canvas.init : Canvas :=
  ⟨CANVAS_SIZE, List.replicate CANVAS_SIZE (Color.init [0, 0, 0, 0])⟩

/-- `Canvas.fill(color)`: `for i in range(0, self.size): self.data[i] = color`;
raises `IndexError` when `size` exceeds the data length. -/
def Canvas.fill (c : Canvas) (color : Color) : Except PyError Canvas :=
  if c.size ≤ c.data.length then
    .ok ⟨c.size, List.replicate c.size color ++ c.data.drop c.size⟩
  else .error .indexError

/-! ## HotplugInfo -/

/-- Modelled from the spec: the `eruption.hardware` module defining
`HotplugInfo` is not among the source files; per the spec's data model it
is "a pair of numeric identifiers (usb_vid, usb_pid)". The transport code
reads exactly the attributes `usb_vid` and `usb_pid`. -/
structure HotplugInfo where
  usb_vid : Int
  usb_pid : Int
  deriving Repr, DecidableEq

/-! ## Wire messages

Modelled from the spec: the generated protobuf module
`eruption/transport/sdk_support_pb2.py` (providing `Request` and
`Response`) is not among the source files; per the spec's wire schema,
`Request` and `Response` are each a one-of over the variants of the data
model, encoded in a compact tagged binary format (field-number +
wire-type headers, length-delimited fields, variable-length integers). -/

/-- Modelled from the spec: the `Request` message of `sdk_support_pb2`,
a tagged union with exactly one active variant. Strings are the
parameter values after coercion; byte payloads are byte lists. -/
inductive Request
  | status
  | activeProfile
  | switchProfile (profile_file : String)
  | setParameters (profile_file : String) (script_file : String)
      (parameter_values : List (String × String))
  | setCanvas (canvas : List Nat)
  | hotplugRequest (payload : List Nat)
  deriving Repr, DecidableEq

/-- Modelled from the spec: the populated variant of a `Response`
message, mirroring the request variants with the daemon's result. -/
inductive ResponseVariant
  | status (description : String)
  | activeProfile (profile_file : String)
  | switchProfile (switched : Bool)
  | setParameters
  | setCanvas
  | hotplug
  deriving Repr, DecidableEq

/-- Modelled from the spec: a decoded `Response` protobuf message; the
one-of holds the populated variant, or `none` when no variant is
populated. -/
structure Response where
  variant : Option ResponseVariant
  deriving Repr, DecidableEq

/-- Modelled from the spec: the generated accessor
`response.status.description` — protobuf accessors return the field's
default value (the empty string) when the variant is not populated. -/
def Response.statusDescription (r : Response) : String :=
  match r.variant with
  | some (.status d) => d
  | _ => ""

/-- Modelled from the spec: the generated accessor
`response.active_profile.profile_file`, defaulting to the empty string. -/
def Response.activeProfileFile (r : Response) : String :=
  match r.variant with
  | some (.activeProfile p) => p
  | _ => ""

/-- Modelled from the spec: the generated accessor
`response.switch_profile.switched`, defaulting to `false`. -/
def Response.switchProfileSwitched (r : Response) : Bool :=
  match r.variant with
  | some (.switchProfile b) => b
  | _ => false

/-- Whether the populated variant is `status`. -/
def Response.isStatus (r : Response) : Bool :=
  match r.variant with
  | some (.status _) => true
  | _ => false

/-- Whether the populated variant is `active_profile`. -/
def Response.isActiveProfile (r : Response) : Bool :=
  match r.variant with
  | some (.activeProfile _) => true
  | _ => false

/-- Whether the populated variant is `switch_profile`. -/
def Response.isSwitchProfile (r : Response) : Bool :=
  match r.variant with
  | some (.switchProfile _) => true
  | _ => false

/-! ## Wire encoding of requests

Modelled from the spec: schema-based tagged binary serialization
(protobuf wire format). Field tag header = `field_number * 8 + wire_type`
as a varint; length-delimited fields (wire type 2) carry a varint byte
count then the bytes; default-valued scalar fields are omitted. The
one-of field numbers follow the data model's variant order, 1 to 6. -/

/-- The UTF-8 bytes of a string, as natural numbers below 256. -/
def strBytes (s : String) : List Nat :=
  s.toUTF8.toList.map (fun b => b.toNat)

/-- A field tag header: `field_number * 8 + wire_type`, varint encoded. -/
def tagBytes (fieldNum wireType : Nat) : List Nat :=
  varintEncode (fieldNum * 8 + wireType)

/-- A length-delimited field: tag header, varint byte count, payload. -/
def lenField (fieldNum : Nat) (payload : List Nat) : List Nat :=
  tagBytes fieldNum 2 ++ varintEncode payload.length ++ payload

/-- A string field, omitted when the string is empty (proto3 default
omission). -/
def strField (fieldNum : Nat) (s : String) : List Nat :=
  if s = "" then [] else lenField fieldNum (strBytes s)

/-- A bytes field, omitted when empty. -/
def bytesField (fieldNum : Nat) (bs : List Nat) : List Nat :=
  if bs = [] then [] else lenField fieldNum bs

/-- One `parameter_values` map entry: key field 1, value field 2, as a
length-delimited entry message under field 3. -/
def mapEntryField (kv : String × String) : List Nat :=
  lenField 3 (strField 1 kv.1 ++ strField 2 kv.2)

/-- The serialized body of each request variant's submessage. -/
def requestBody : Request → List Nat
  | .status => []
  | .activeProfile => []
  | .switchProfile pf => strField 1 pf
  | .setParameters pf sf ps =>
    strField 1 pf ++ strField 2 sf ++ (ps.map mapEntryField).flatten
  | .setCanvas bs => bytesField 1 bs
  | .hotplugRequest bs => bytesField 1 bs

/-- The one-of field number of each request variant. -/
def requestFieldNum : Request → Nat
  | .status => 1
  | .activeProfile => 2
  | .switchProfile _ => 3
  | .setParameters _ _ _ => 4
  | .setCanvas _ => 5
  | .hotplugRequest _ => 6

/-- `request.SerializeToString()`: the active variant's submessage as a
length-delimited field under its one-of field number. -/
def serializeRequest (r : Request) : List Nat :=
  lenField (requestFieldNum r) (requestBody r)

/-- The varint size function used by protobuf size computation:
`varintSize n` is the number of bytes of `varintEncode n`. -/
def varintSize (n : Nat) : Nat :=
  if h : n < 128 then 1 else 1 + varintSize (n / 128)
  decreasing_by exact Nat.div_lt_self (by omega) (by omega)

/-- `request.ByteSize()`: protobuf computes the serialized size without
serializing — tag size plus varint size of the body length plus body
length, for the active one-of field. -/
def requestByteSize (r : Request) : Nat :=
  varintSize (requestFieldNum r * 8 + 2) + varintSize (requestBody r).length +
    (requestBody r).length

theorem varintSize_eq_length (n : Nat) : varintSize n = (varintEncode n).length := by
  induction n using Nat.strong_induction_on with
  | _ n ih =>
    by_cases h : n < 128
    · rw [varintSize, varintEncode]
      simp [h]
    · push_neg at h
      rw [varintSize, varintEncode]
      have hdiv : n / 128 < n := Nat.div_lt_self (by omega) (by omega)
      simp [Nat.not_lt_of_le h, ih (n / 128) hdiv, Nat.add_comm]

/-- `ByteSize()` agrees with the length of `SerializeToString()`. -/
theorem requestByteSize_eq_length (r : Request) :
    requestByteSize r = (serializeRequest r).length := by
  simp [requestByteSize, serializeRequest, lenField, tagBytes,
    varintSize_eq_length, Nat.add_assoc]

/-- The write path of every operation in `transport/local.py`:
`buf = _VarintBytes(request.ByteSize()); buf += request.SerializeToString();
self.socket.send(bytes(buf))`. -/
def writePathBytes (r : Request) : List Nat :=
  varintEncode (requestByteSize r) ++ serializeRequest r

/-! ## Building requests (`transport/local.py`) -/

/-- `submit_canvas`'s collection loop:
`for color in canvas.data: color_bytes.append(color.data[0]); ... append(color.data[3])`;
an out-of-range index raises `IndexError` at the first offending color. -/
def collectColorInts : List Color → Except PyError (List Int)
  | [] => .ok []
  | c :: rest =>
    match c.data.getItem 0 with
    | .error e => .error e
    | .ok r =>
      match c.data.getItem 1 with
      | .error e => .error e
      | .ok g =>
        match c.data.getItem 2 with
        | .error e => .error e
        | .ok b =>
          match c.data.getItem 3 with
          | .error e => .error e
          | .ok a =>
            match collectColorInts rest with
            | .error e => .error e
            | .ok tail => .ok (r :: g :: b :: a :: tail)

/-- `submit_canvas`'s serialization of the canvas payload: the collection
loop followed by `bytes(color_bytes)`. -/
def canvasPayload (c : Canvas) : Except PyError (List Nat) :=
  match collectColorInts c.data with
  | .error e => .error e
  | .ok ints => pyBytes ints

/-- `notify_device_hotplug`'s payload:
`data_bytes = [hotplug_info.usb_vid, hotplug_info.usb_pid]; bytes(data_bytes)`. -/
def hotplugPayload (info : HotplugInfo) : Except PyError (List Nat) :=
  pyBytes [info.usb_vid, info.usb_pid]

/-- One data operation of the session client, with its arguments. -/
inductive DataOp
  | getServerStatus
  | getActiveProfile
  | switchProfile (profile_file : String)
  | setParameters (profile_file : String) (script_file : String)
      (parameters : List (String × PyVal))
  | submitCanvas (canvas : Canvas)
  | notifyDeviceHotplug (info : HotplugInfo)

/-- The request each operation of `transport/local.py` builds before the
write path; payload construction can raise (`bytes(...)` on out-of-range
values, indexing a short color tuple). `set_parameters` coerces every
supplied value with `str(value)` and keeps exactly the supplied keys. -/
def buildRequest : DataOp → Except PyError Request
  | .getServerStatus => .ok .status
  | .getActiveProfile => .ok .activeProfile
  | .switchProfile pf => .ok (.switchProfile pf)
  | .setParameters pf sf ps =>
    .ok (.setParameters pf sf (ps.map (fun kv => (kv.1, pyStr kv.2))))
  | .submitCanvas c =>
    match canvasPayload c with
    | .ok bs => .ok (.setCanvas bs)
    | .error e => .error e
  | .notifyDeviceHotplug info =>
    match hotplugPayload info with
    | .ok bs => .ok (.hotplugRequest bs)
    | .error e => .error e

/-- The typed result a data operation returns to the caller. -/
inductive OpResult
  | mapResult (m : List (String × String))
  | strResult (s : String)
  | boolResult (b : Bool)
  | respResult (r : Response)
  deriving Repr, DecidableEq

/-- How each operation of `transport/local.py` maps the decoded reply to
its return value: `get_server_status` returns
`{"server": response.status.description}`, `get_active_profile` returns
`response.active_profile.profile_file`, `switch_profile` returns
`response.switch_profile.switched`, and the remaining operations return
the response object itself. No operation inspects which variant is
populated, and nothing in the source ever raises `RequestFailed`. -/
def handleReply : DataOp → Response → OpResult
  | .getServerStatus, r => .mapResult [("server", r.statusDescription)]
  | .getActiveProfile, r => .strResult r.activeProfileFile
  | .switchProfile _, r => .boolResult r.switchProfileSwitched
  | .setParameters _ _ _, r => .respResult r
  | .submitCanvas _, r => .respResult r
  | .notifyDeviceHotplug _, r => .respResult r

/-! ## Connection state machine (`connection.py`) -/

/-- `Connection.LOCAL = 1`. -/
def LOCAL : Nat := 1

/-- A `Connection` object (`connection.py`): `__init__` stores only
`connection_type`; the `connected` attribute is first assigned in
`connect()` (`True`) and `disconnect()` (`False`). `none` models the
attribute not existing yet on a fresh object. -/
structure Connection where
  connection_type : Nat
  connected : Option Bool
  deriving Repr, DecidableEq

/-- `Connection(type=...)`: raises `InvalidParam` unless the type is
`Connection.LOCAL`; otherwise stores it and leaves `connected` unset. -/
def Connection.init (ty : Nat) : Except PyError Connection :=
  if ty = LOCAL then .ok ⟨ty, none⟩ else .error .invalidParam

/-- `Connection.connect()`: opens the transport and sets
`self.connected = True` (connect success assumed; a failing socket
connect raises before the assignment). -/
def Connection.connect (c : Connection) : Connection :=
  ⟨c.connection_type, some true⟩

/-- `Connection.is_connected()`: returns `self.connected`; on a fresh
object the attribute does not exist and Python raises `AttributeError`. -/
def Connection.is_connected (c : Connection) : Except PyError Bool :=
  match c.connected with
  | none => .error .attributeError
  | some b => .ok b

/-- `Connection.disconnect()`: raises through `is_connected` (fresh
object) or `NotConnectedError` (already disconnected); otherwise clears
the transport and sets `self.connected = False`. -/
def Connection.disconnect (c : Connection) : Except PyError Connection :=
  match c.is_connected with
  | .error e => .error e
  | .ok false => .error .notConnectedError
  | .ok true => .ok ⟨c.connection_type, some false⟩

/-- Running one data operation of `connection.py` against a daemon whose
decoded reply is `reply`: the guard
`if not self.is_connected(): raise NotConnectedError(...)` runs first
(raising before any I/O), then the transport builds the request, sends
the framed bytes, receives, and maps the reply. The second component is
the byte sequence sent over the channel (`[]` when the operation raises
before the send). -/
def runDataOp (c : Connection) (op : DataOp) (reply : Response) :
    Except PyError OpResult × List Nat :=
  match c.is_connected with
  | .error e => (.error e, [])
  | .ok false => (.error .notConnectedError, [])
  | .ok true =>
    match buildRequest op with
    | .error e => (.error e, [])
    | .ok req => (.ok (handleReply op reply), writePathBytes req)

/-! ## Helper lemmas -/

instance exceptDecEq {ε α : Type} [DecidableEq ε] [DecidableEq α] :
    DecidableEq (Except ε α) := fun x y =>
  match x, y with
  | .ok a, .ok b => if h : a = b then isTrue (by rw [h]) else isFalse (by simp [h])
  | .ok _, .error _ => isFalse (by simp)
  | .error _, .ok _ => isFalse (by simp)
  | .error e, .error f => if h : e = f then isTrue (by rw [h]) else isFalse (by simp [h])

theorem statusDescription_of_not_status (r : Response) (h : r.isStatus = false) :
    r.statusDescription = "" := by
  unfold Response.statusDescription Response.isStatus at *
  rcases hv : r.variant with _ | v
  · simp [hv]
  · cases v <;> simp_all [hv]

theorem activeProfileFile_of_not_activeProfile (r : Response)
    (h : r.isActiveProfile = false) : r.activeProfileFile = "" := by
  unfold Response.activeProfileFile Response.isActiveProfile at *
  rcases hv : r.variant with _ | v
  · simp [hv]
  · cases v <;> simp_all [hv]

theorem switchProfileSwitched_of_not_switchProfile (r : Response)
    (h : r.isSwitchProfile = false) : r.switchProfileSwitched = false := by
  unfold Response.switchProfileSwitched Response.isSwitchProfile at *
  rcases hv : r.variant with _ | v
  · simp [hv]
  · cases v <;> simp_all [hv]

theorem is_connected_of_flag (c : Connection) (h : c.connected = some true) :
    c.is_connected = .ok true := by
  unfold Connection.is_connected
  rw [h]

theorem runDataOp_connected (c : Connection) (op : DataOp) (reply : Response)
    (req : Request) (hc : c.connected = some true)
    (hreq : buildRequest op = .ok req) :
    runDataOp c op reply = (.ok (handleReply op reply), writePathBytes req) := by
  unfold runDataOp
  rw [is_connected_of_flag c hc, hreq]

/-! ## Claim theorems -/

/-- Claim C1, counterexample: for the 128-byte payload of zeros,
`unframe (frame payload)` differs from the payload — the varint length
prefix for 128 is two bytes, but the read path strips exactly one. -/
theorem framing_roundtrip_fails_at_128 :
    unframe (frame (List.replicate 128 0)) ≠ List.replicate 128 0 := by
  intro h
  have hlen := congrArg List.length h
  have h128 : (128 : Nat) ≤ (List.replicate 128 (0 : Nat)).length := by simp
  have h2 := two_le_length_varintEncode (List.replicate 128 (0 : Nat)).length h128
  simp only [frame, unframe, List.length_drop, List.length_append,
    List.length_replicate] at hlen h2
  omega

/-- Claim C1, amended: the framing round-trip `unframe (frame p) = p`
holds exactly for payloads shorter than 128 bytes (so for the listed
lengths 0, 1 and 127); for any payload of length at least 128 (including
128 and 16384) the round-trip fails, because the varint length prefix
then occupies at least two bytes while `unframe` strips exactly one. -/
theorem framing_roundtrip_iff_short (p : List Nat) :
    (p.length < 128 → unframe (frame p) = p) ∧
    (128 ≤ p.length → unframe (frame p) ≠ p) := by
  constructor
  · intro h
    simp [frame, unframe, varintEncode_lt p.length h]
  · intro h hEq
    have hlen := congrArg List.length hEq
    have h2 := two_le_length_varintEncode p.length h
    simp only [frame, unframe, List.length_drop, List.length_append] at hlen
    omega

/-- Claim C1, witness: the round-trip holds at the 1-byte payload `[5]`
and fails at the 130-byte payload of zeros. -/
theorem framing_roundtrip_iff_short_witness :
    unframe (frame [5]) = [5] ∧
    unframe (frame (List.replicate 130 0)) ≠ List.replicate 130 0 :=
  ⟨(framing_roundtrip_iff_short [5]).1 (by simp),
   (framing_roundtrip_iff_short (List.replicate 130 0)).2 (by simp)⟩

/-- Claim C9: on the write path of every operation, the bytes sent over
the channel are exactly the serialized request's byte length as a
base-128 continuation-bit varint (least-significant group first)
followed by the serialized request bytes; decoding the varint prefix
recovers that length and leaves exactly the message bytes. -/
theorem writePath_framing (c : Connection) (op : DataOp) (reply : Response)
    (req : Request) (hc : c.connected = some true)
    (hreq : buildRequest op = .ok req) :
    (runDataOp c op reply).2 =
      varintEncode (serializeRequest req).length ++ serializeRequest req ∧
    varintDecode (runDataOp c op reply).2 =
      some ((serializeRequest req).length, serializeRequest req) := by
  rw [runDataOp_connected c op reply req hc hreq]
  constructor
  · simp [writePathBytes, requestByteSize_eq_length]
  · simp [writePathBytes, requestByteSize_eq_length, varintDecode_varintEncode]

/-- Claim C9, witness: the `Status` request of `get_server_status` on a
connected client is sent length-prefixed, and the prefix decodes back. -/
theorem writePath_framing_witness :
    (runDataOp ⟨1, some true⟩ .getServerStatus ⟨none⟩).2 =
      varintEncode (serializeRequest .status).length ++ serializeRequest .status ∧
    varintDecode (runDataOp ⟨1, some true⟩ .getServerStatus ⟨none⟩).2 =
      some ((serializeRequest .status).length, serializeRequest .status) :=
  writePath_framing ⟨1, some true⟩ .getServerStatus ⟨none⟩ .status rfl rfl

/-- Claim C3 (code bug evaluation): on a fresh, never-connected
`Connection(type=Connection.LOCAL)`, every data operation raises
`AttributeError` — not `NotConnectedError` — because `__init__` never
initialises `self.connected`; no bytes are sent. After a
connect/disconnect cycle the `connected` attribute exists and is
`False`, and every data operation then raises `NotConnectedError` with
no bytes sent. -/
theorem fresh_client_attributeError :
    Connection.init LOCAL = .ok ⟨LOCAL, none⟩ ∧
    (∀ (op : DataOp) (reply : Response),
      runDataOp ⟨LOCAL, none⟩ op reply = (.error .attributeError, [])) ∧
    (Connection.disconnect (Connection.connect ⟨LOCAL, none⟩) =
      .ok ⟨LOCAL, some false⟩) ∧
    (∀ (op : DataOp) (reply : Response),
      runDataOp ⟨LOCAL, some false⟩ op reply = (.error .notConnectedError, [])) :=
  ⟨rfl, fun _ _ => rfl, rfl, fun _ _ => rfl⟩

/-- Claim C2, counterexample: on a connected client, `get_server_status`
against a reply whose populated variant is `switch_profile` (not the
`status` variant that was requested) does not raise `RequestFailed`; it
returns the partial result `{"server": ""}` built from the default
value of the unpopulated `status` field. -/
theorem decode_mismatch_no_requestFailed :
    runDataOp ⟨1, some true⟩ .getServerStatus ⟨some (.switchProfile true)⟩ =
      (.ok (.mapResult [("server", "")]), writePathBytes .status) ∧
    (runDataOp ⟨1, some true⟩ .getServerStatus ⟨some (.switchProfile true)⟩).1 ≠
      .error .requestFailed :=
  ⟨rfl, by decide⟩

/-- Claim C2, amended: no operation inspects which reply variant is
populated and nothing ever raises `RequestFailed` (the class is defined
but unused). On a variant mismatch, `get_server_status`,
`get_active_profile` and `switch_profile` return the expected field's
protobuf default (`{"server": ""}`, `""`, `false`) as a normal result,
and `set_parameters`, `submit_canvas` and `notify_device_hotplug` return
the decoded response object unchanged whatever its variant. -/
theorem decode_mismatch_returns_defaults (c : Connection) (reply : Response)
    (hc : c.connected = some true) :
    (reply.isStatus = false →
      runDataOp c .getServerStatus reply =
        (.ok (.mapResult [("server", "")]), writePathBytes .status)) ∧
    (reply.isActiveProfile = false →
      runDataOp c .getActiveProfile reply =
        (.ok (.strResult ""), writePathBytes .activeProfile)) ∧
    (∀ pf, reply.isSwitchProfile = false →
      runDataOp c (.switchProfile pf) reply =
        (.ok (.boolResult false), writePathBytes (.switchProfile pf))) ∧
    (∀ pf sf ps, (runDataOp c (.setParameters pf sf ps) reply).1 =
        .ok (.respResult reply)) ∧
    (∀ cv req, buildRequest (.submitCanvas cv) = .ok req →
      (runDataOp c (.submitCanvas cv) reply).1 = .ok (.respResult reply)) ∧
    (∀ info req, buildRequest (.notifyDeviceHotplug info) = .ok req →
      (runDataOp c (.notifyDeviceHotplug info) reply).1 = .ok (.respResult reply)) := by
  refine ⟨?_, ?_, ?_, ?_, ?_, ?_⟩
  · intro h
    rw [runDataOp_connected c .getServerStatus reply .status hc rfl]
    simp [handleReply, statusDescription_of_not_status reply h]
  · intro h
    rw [runDataOp_connected c .getActiveProfile reply .activeProfile hc rfl]
    simp [handleReply, activeProfileFile_of_not_activeProfile reply h]
  · intro pf h
    rw [runDataOp_connected c (.switchProfile pf) reply (.switchProfile pf) hc rfl]
    simp [handleReply, switchProfileSwitched_of_not_switchProfile reply h]
  · intro pf sf ps
    have hreq : buildRequest (.setParameters pf sf ps) =
        .ok (.setParameters pf sf (ps.map (fun kv => (kv.1, pyStr kv.2)))) := rfl
    rw [runDataOp_connected c (.setParameters pf sf ps) reply _ hc hreq]
    rfl
  · intro cv req hreq
    rw [runDataOp_connected c (.submitCanvas cv) reply req hc hreq]
    rfl
  · intro info req hreq
    rw [runDataOp_connected c (.notifyDeviceHotplug info) reply req hc hreq]
    rfl

/-- Claim C2, witness: each hypothesised branch of the amended theorem at
the connected client `⟨1, some true⟩` and the empty reply `⟨none⟩`. -/
theorem decode_mismatch_returns_defaults_witness :
    runDataOp ⟨1, some true⟩ .getServerStatus ⟨none⟩ =
      (.ok (.mapResult [("server", "")]), writePathBytes .status) ∧
    runDataOp ⟨1, some true⟩ .getActiveProfile ⟨none⟩ =
      (.ok (.strResult ""), writePathBytes .activeProfile) ∧
    runDataOp ⟨1, some true⟩ (.switchProfile "/tmp/a.profile") ⟨none⟩ =
      (.ok (.boolResult false), writePathBytes (.switchProfile "/tmp/a.profile")) ∧
    (runDataOp ⟨1, some true⟩ (.submitCanvas ⟨0, []⟩) ⟨none⟩).1 =
      .ok (.respResult ⟨none⟩) ∧
    (runDataOp ⟨1, some true⟩ (.notifyDeviceHotplug ⟨1, 2⟩) ⟨none⟩).1 =
      .ok (.respResult ⟨none⟩) :=
  ⟨(decode_mismatch_returns_defaults ⟨1, some true⟩ ⟨none⟩ rfl).1 rfl,
   (decode_mismatch_returns_defaults ⟨1, some true⟩ ⟨none⟩ rfl).2.1 rfl,
   (decode_mismatch_returns_defaults ⟨1, some true⟩ ⟨none⟩ rfl).2.2.1
     "/tmp/a.profile" rfl,
   (decode_mismatch_returns_defaults ⟨1, some true⟩ ⟨none⟩ rfl).2.2.2.2.1
     ⟨0, []⟩ (.setCanvas []) rfl,
   (decode_mismatch_returns_defaults ⟨1, some true⟩ ⟨none⟩ rfl).2.2.2.2.2
     ⟨1, 2⟩ (.hotplugRequest [1, 2]) (by decide)⟩

/-- Claim C7: on a connected client, `switch_profile(path)` builds a
`SwitchProfile` request carrying that path, sends it framed, and returns
the `switched` boolean of the daemon's `SwitchProfile` reply as a normal
result — in particular `switched = false` is returned as `false`, not
raised. -/
theorem switchProfile_returns_switched (c : Connection) (pf : String) (b : Bool)
    (hc : c.connected = some true) :
    buildRequest (.switchProfile pf) = .ok (.switchProfile pf) ∧
    runDataOp c (.switchProfile pf) ⟨some (.switchProfile b)⟩ =
      (.ok (.boolResult b), writePathBytes (.switchProfile pf)) := by
  refine ⟨rfl, ?_⟩
  rw [runDataOp_connected c (.switchProfile pf) ⟨some (.switchProfile b)⟩
    (.switchProfile pf) hc rfl]
  rfl

/-- Claim C7, witness: `switch_profile("/tmp/x.profile")` against a stub
replying `switched = false` returns `false` and raises nothing. -/
theorem switchProfile_returns_switched_witness :
    runDataOp ⟨1, some true⟩ (.switchProfile "/tmp/x.profile")
        ⟨some (.switchProfile false)⟩ =
      (.ok (.boolResult false), writePathBytes (.switchProfile "/tmp/x.profile")) :=
  (switchProfile_returns_switched ⟨1, some true⟩ "/tmp/x.profile" false rfl).2

/-- Claim C8: on a connected client, `get_server_status` builds a
`Status` request and returns the one-key mapping
`{"server": description}` extracted from the daemon's `Status` reply. -/
theorem getServerStatus_returns_description (c : Connection) (d : String)
    (hc : c.connected = some true) :
    buildRequest .getServerStatus = .ok .status ∧
    runDataOp c .getServerStatus ⟨some (.status d)⟩ =
      (.ok (.mapResult [("server", d)]), writePathBytes .status) := by
  refine ⟨rfl, ?_⟩
  rw [runDataOp_connected c .getServerStatus ⟨some (.status d)⟩ .status hc rfl]
  rfl

/-- Claim C8, witness: a `Status` reply with description
`"eruption 0.1.0"` yields `{"server": "eruption 0.1.0"}`. -/
theorem getServerStatus_returns_description_witness :
    runDataOp ⟨1, some true⟩ .getServerStatus ⟨some (.status "eruption 0.1.0")⟩ =
      (.ok (.mapResult [("server", "eruption 0.1.0")]), writePathBytes .status) :=
  (getServerStatus_returns_description ⟨1, some true⟩ "eruption 0.1.0" rfl).2

/-- Claim C4: `notify_device_hotplug` serializes `usb_vid` and `usb_pid`
as one byte each. When both are in `0..255`, the request's payload is
exactly the two bytes `[usb_vid, usb_pid]`; when either lies outside one
byte, `bytes([usb_vid, usb_pid])` raises `ValueError` before
transmission and no bytes are sent. -/
theorem hotplug_payload_bytes (info : HotplugInfo) (c : Connection)
    (reply : Response) (hc : c.connected = some true) :
    ((0 ≤ info.usb_vid ∧ info.usb_vid < 256 ∧
        0 ≤ info.usb_pid ∧ info.usb_pid < 256) →
      buildRequest (.notifyDeviceHotplug info) =
        .ok (.hotplugRequest [info.usb_vid.toNat, info.usb_pid.toNat]) ∧
      runDataOp c (.notifyDeviceHotplug info) reply =
        (.ok (.respResult reply),
          writePathBytes (.hotplugRequest [info.usb_vid.toNat, info.usb_pid.toNat]))) ∧
    (¬ (0 ≤ info.usb_vid ∧ info.usb_vid < 256 ∧
        0 ≤ info.usb_pid ∧ info.usb_pid < 256) →
      runDataOp c (.notifyDeviceHotplug info) reply = (.error .valueError, [])) := by
  constructor
  · rintro ⟨h1, h2, h3, h4⟩
    have hpay : hotplugPayload info = .ok [info.usb_vid.toNat, info.usb_pid.toNat] := by
      simp [hotplugPayload, pyBytes, h1, h2, h3, h4]
    have hreq : buildRequest (.notifyDeviceHotplug info) =
        .ok (.hotplugRequest [info.usb_vid.toNat, info.usb_pid.toNat]) := by
      simp only [buildRequest]
      rw [hpay]
    refine ⟨hreq, ?_⟩
    rw [runDataOp_connected c (.notifyDeviceHotplug info) reply _ hc hreq]
    rfl
  · intro h
    have hpay : hotplugPayload info = .error .valueError := by
      by_cases hv : 0 ≤ info.usb_vid ∧ info.usb_vid < 256
      · have hp : ¬ (0 ≤ info.usb_pid ∧ info.usb_pid < 256) := by tauto
        simp [hotplugPayload, pyBytes, hv, hp]
      · simp [hotplugPayload, pyBytes, hv]
    unfold runDataOp
    rw [is_connected_of_flag c hc]
    simp [buildRequest, hpay]

/-- Claim C4, witness: `usb_vid = 5, usb_pid = 200` yields the two-byte
payload `[5, 200]`; `usb_vid = 0x1532 = 5426` (a 16-bit vendor id) makes
the call raise `ValueError` with no bytes sent. -/
theorem hotplug_payload_bytes_witness :
    buildRequest (.notifyDeviceHotplug ⟨5, 200⟩) = .ok (.hotplugRequest [5, 200]) ∧
    runDataOp ⟨1, some true⟩ (.notifyDeviceHotplug ⟨5426, 3⟩) ⟨none⟩ =
      (.error .valueError, []) :=
  ⟨((hotplug_payload_bytes ⟨5, 200⟩ ⟨1, some true⟩ ⟨none⟩ rfl).1 (by decide)).1,
   (hotplug_payload_bytes ⟨5426, 3⟩ ⟨1, some true⟩ ⟨none⟩ rfl).2 (by decide)⟩

/-- Claim C10: `Color(r, g, b, a)` stores its channels as the immutable
argument tuple, so each channel setter's item assignment raises
`TypeError` for every value and leaves the color's channels unchanged. -/
theorem color_setters_raise_typeError (r g b a v : Int) :
    Color.set_r (Color.init [r, g, b, a]) v =
      (.error .typeError, Color.init [r, g, b, a]) ∧
    Color.set_g (Color.init [r, g, b, a]) v =
      (.error .typeError, Color.init [r, g, b, a]) ∧
    Color.set_b (Color.init [r, g, b, a]) v =
      (.error .typeError, Color.init [r, g, b, a]) ∧
    Color.set_a (Color.init [r, g, b, a]) v =
      (.error .typeError, Color.init [r, g, b, a]) :=
  ⟨rfl, rfl, rfl, rfl⟩

/-! ## Canvas serialization helpers -/

/-- The color cell of a 4-channel quadruple. -/
def quadColor (q : Int × Int × Int × Int) : Color :=
  Color.init [q.1, q.2.1, q.2.2.1, q.2.2.2]

/-- The four channel values of a quadruple in R, G, B, A order. -/
def quadInts (q : Int × Int × Int × Int) : List Int :=
  [q.1, q.2.1, q.2.2.1, q.2.2.2]

theorem collectColorInts_cons_quad (q : Int × Int × Int × Int) (t : List Color)
    (tail : List Int) (h : collectColorInts t = .ok tail) :
    collectColorInts (quadColor q :: t) =
      .ok (q.1 :: q.2.1 :: q.2.2.1 :: q.2.2.2 :: tail) := by
  unfold collectColorInts
  simp only [quadColor, Color.init, PySeq.getItem, PySeq.elems]
  simp [h]
  rfl

theorem collectColorInts_quads (quads : List (Int × Int × Int × Int)) :
    collectColorInts (quads.map quadColor) = .ok (quads.flatMap quadInts) := by
  induction quads with
  | nil => rfl
  | cons q t ih =>
    rw [List.map_cons, collectColorInts_cons_quad q _ _ ih]
    rfl

theorem pyBytes_ok (xs : List Int) (h : ∀ x ∈ xs, 0 ≤ x ∧ x < 256) :
    pyBytes xs = .ok (xs.map Int.toNat) := by
  induction xs with
  | nil => rfl
  | cons x t ih =>
    have hx := h x (List.mem_cons_self x t)
    have ht := ih (fun y hy => h y (List.mem_cons_of_mem x hy))
    simp [pyBytes, hx.1, hx.2, ht]

theorem buildRequest_submitCanvas_ok (cv : Canvas) (bs : List Nat)
    (h : canvasPayload cv = .ok bs) :
    buildRequest (.submitCanvas cv) = .ok (.setCanvas bs) := by
  simp only [buildRequest]
  rw [h]

theorem canvasPayload_quads (sz : Nat) (quads : List (Int × Int × Int × Int))
    (hb : ∀ q ∈ quads, 0 ≤ q.1 ∧ q.1 < 256 ∧ 0 ≤ q.2.1 ∧ q.2.1 < 256 ∧
      0 ≤ q.2.2.1 ∧ q.2.2.1 < 256 ∧ 0 ≤ q.2.2.2 ∧ q.2.2.2 < 256) :
    canvasPayload ⟨sz, quads.map quadColor⟩ =
      .ok ((quads.flatMap quadInts).map Int.toNat) := by
  have hmem : ∀ x ∈ quads.flatMap quadInts, 0 ≤ x ∧ x < 256 := by
    intro x hx
    rw [List.mem_flatMap] at hx
    obtain ⟨q, hq, hxq⟩ := hx
    have hbq := hb q hq
    simp [quadInts] at hxq
    rcases hxq with h | h | h | h <;> subst h <;> tauto
  simp [canvasPayload, collectColorInts_quads, pyBytes_ok _ hmem]

theorem length_flatMap_quadInts (quads : List (Int × Int × Int × Int)) :
    (quads.flatMap quadInts).length = 4 * quads.length := by
  induction quads with
  | nil => rfl
  | cons q t ih =>
    simp [quadInts, ih]
    ring

theorem quadInts_replicate_map (n : Nat) :
    ((List.replicate n ((255 : Int), (0 : Int), (0 : Int), (128 : Int))).flatMap
        quadInts).map Int.toNat =
      (List.replicate n ([255, 0, 0, 128] : List Nat)).flatten := by
  induction n with
  | zero => rfl
  | succ m ih => simp [List.replicate_succ, quadInts, ih]

/-- Claim C5: for every canvas of exactly 180 cells with byte-valued
RGBA channels, `submit_canvas` builds a `SetCanvas` request whose
payload is the flat concatenation of the 4 channel bytes of each cell in
index order, exactly 720 bytes; and a fresh canvas filled uniformly with
`Color(255, 0, 0, 128)` yields 180 consecutive groups `[255, 0, 0, 128]`. -/
theorem submitCanvas_serializes_720 (quads : List (Int × Int × Int × Int))
    (hlen : quads.length = 180)
    (hb : ∀ q ∈ quads, 0 ≤ q.1 ∧ q.1 < 256 ∧ 0 ≤ q.2.1 ∧ q.2.1 < 256 ∧
      0 ≤ q.2.2.1 ∧ q.2.2.1 < 256 ∧ 0 ≤ q.2.2.2 ∧ q.2.2.2 < 256) :
    (buildRequest (.submitCanvas ⟨CANVAS_SIZE, quads.map quadColor⟩) =
        .ok (.setCanvas ((quads.flatMap quadInts).map Int.toNat)) ∧
      ((quads.flatMap quadInts).map Int.toNat).length = 720) ∧
    (∀ cv, Canvas.init.fill (Color.init [255, 0, 0, 128]) = .ok cv →
      buildRequest (.submitCanvas cv) =
        .ok (.setCanvas (List.replicate 180 ([255, 0, 0, 128] : List Nat)).flatten) ∧
      ((List.replicate 180 ([255, 0, 0, 128] : List Nat)).flatten).length = 720) := by
  constructor
  · constructor
    · simp [buildRequest, canvasPayload_quads CANVAS_SIZE quads hb]
    · rw [List.length_map, length_flatMap_quadInts, hlen]
  · intro cv hcv
    have hcv2 : cv = ⟨180, List.replicate 180 (Color.init [255, 0, 0, 128])⟩ := by
      simp [Canvas.init, Canvas.fill, CANVAS_SIZE, List.drop_replicate] at hcv
      exact hcv.symm
    subst hcv2
    have hb2 : ∀ q ∈ List.replicate 180 ((255 : Int), (0 : Int), (0 : Int), (128 : Int)),
        0 ≤ q.1 ∧ q.1 < 256 ∧ 0 ≤ q.2.1 ∧ q.2.1 < 256 ∧
        0 ≤ q.2.2.1 ∧ q.2.2.1 < 256 ∧ 0 ≤ q.2.2.2 ∧ q.2.2.2 < 256 := by
      intro q hq
      have := List.eq_of_mem_replicate hq
      subst this
      norm_num
    have hpay := canvasPayload_quads 180
      (List.replicate 180 ((255 : Int), (0 : Int), (0 : Int), (128 : Int))) hb2
    rw [List.map_replicate] at hpay
    have hqc : quadColor ((255 : Int), (0 : Int), (0 : Int), (128 : Int)) =
        Color.init [255, 0, 0, 128] := rfl
    rw [hqc, quadInts_replicate_map] at hpay
    refine ⟨buildRequest_submitCanvas_ok _ _ hpay, ?_⟩
    simp [List.length_flatten, List.map_replicate, List.sum_replicate]

/-- Claim C5, witness: the uniform 180-cell canvas of `(255, 0, 0, 128)`
quadruples serializes to the 720-byte flat payload. -/
theorem submitCanvas_serializes_720_witness :
    buildRequest (.submitCanvas ⟨CANVAS_SIZE,
        (List.replicate 180 ((255 : Int), (0 : Int), (0 : Int), (128 : Int))).map
          quadColor⟩) =
      .ok (.setCanvas (((List.replicate 180
        ((255 : Int), (0 : Int), (0 : Int), (128 : Int))).flatMap quadInts).map
          Int.toNat)) ∧
    ((((List.replicate 180 ((255 : Int), (0 : Int), (0 : Int), (128 : Int))).flatMap
        quadInts)).map Int.toNat).length = 720 :=
  (submitCanvas_serializes_720
    (List.replicate 180 ((255 : Int), (0 : Int), (0 : Int), (128 : Int)))
    (by simp)
    (by
      intro q hq
      have := List.eq_of_mem_replicate hq
      subst this
      norm_num)).1

/-- Claim C6: `set_parameters(profile_file, script_file, **parameters)`
coerces every supplied value to its `str(...)` textual representation
and transmits exactly the supplied keys — e.g. `1.5` and `-1` are sent
as the strings `"1.5"` and `"-1"`. -/
theorem setParameters_string_coercion (c : Connection) (reply : Response)
    (pf sf : String) (ps : List (String × PyVal)) (hc : c.connected = some true) :
    buildRequest (.setParameters pf sf ps) =
      .ok (.setParameters pf sf (ps.map (fun kv => (kv.1, pyStr kv.2)))) ∧
    (ps.map (fun kv => (kv.1, pyStr kv.2))).map Prod.fst = ps.map Prod.fst ∧
    pyStr (.pyFloat10 15 1) = "1.5" ∧
    pyStr (.pyInt (-1)) = "-1" ∧
    runDataOp c (.setParameters pf sf ps) reply =
      (.ok (.respResult reply),
        writePathBytes (.setParameters pf sf (ps.map (fun kv => (kv.1, pyStr kv.2))))) := by
  refine ⟨rfl, by simp, by decide, by decide, ?_⟩
  have hreq : buildRequest (.setParameters pf sf ps) =
      .ok (.setParameters pf sf (ps.map (fun kv => (kv.1, pyStr kv.2)))) := rfl
  rw [runDataOp_connected c (.setParameters pf sf ps) reply _ hc hreq]
  rfl

/-- Claim C6, witness: the parameter map
`{"speed_divisor": 1.5, "direction": -1}` is transmitted as
`{"speed_divisor": "1.5", "direction": "-1"}` and no other keys. -/
theorem setParameters_string_coercion_witness :
    buildRequest (.setParameters "profile" "script"
        [("speed_divisor", .pyFloat10 15 1), ("direction", .pyInt (-1))]) =
      .ok (.setParameters "profile" "script"
        ([("speed_divisor", PyVal.pyFloat10 15 1),
          ("direction", PyVal.pyInt (-1))].map (fun kv => (kv.1, pyStr kv.2)))) ∧
    ([("speed_divisor", PyVal.pyFloat10 15 1),
      ("direction", PyVal.pyInt (-1))].map (fun kv => (kv.1, pyStr kv.2))) =
      [("speed_divisor", "1.5"), ("direction", "-1")] :=
  ⟨(setParameters_string_coercion ⟨1, some true⟩ ⟨none⟩ "profile" "script"
      [("speed_divisor", .pyFloat10 15 1), ("direction", .pyInt (-1))] rfl).1,
   by decide⟩

end Eruption
